import Mathlib

/-!
# Shallow embedding of `src/src/components/RecordingModule.tsx`

The component is a single React function component whose observable state is
a collection of `useState` hooks and `useRef` cells.  We embed that state as
one record, `ModuleState`, and each event handler / effect body as a pure
state transformer.  Asynchronous platform results (`getUserMedia` success or
failure, `MediaRecorder` `dataavailable` / `onstop` events, timer ticks) are
modelled as explicit parameters or separate transition steps.  `setX(v)` is
modelled as an immediate field update.

Media streams handed out by `getUserMedia` live in a heap-like list
`streams`; each carries the device pair it was acquired with and a
stopped-flag per track, so that "a stream still holds devices" is expressible
even after the component drops its reference to it.
-/

set_option autoImplicit false

namespace RecordingModule

/-- One media stream object returned by `getUserMedia`.  `tracks` holds one
stopped-flag per track (`true` = stopped); a fresh stream has one video and
one audio track, both live. -/
structure MediaStreamObj where
  sid : Nat
  videoDevice : String
  audioDevice : String
  tracks : List Bool
deriving Repr, DecidableEq

/-- One entry of `navigator.mediaDevices.enumerateDevices()`. -/
structure DeviceInfo where
  deviceId : String
  kind : String
  label : String
deriving Repr, DecidableEq

/-- A recorded fragment (`event.data` of a `dataavailable` event), as bytes. -/
abbrev Chunk := List Nat

/-- The component state: each field matches a `useState` hook or `useRef`
cell of `RecordingModule`, plus the stream heap (`streams`, `nextSid`) and a
console log (`errorLog`) used to observe the `console.error` diagnostic.
`mediaRecorderRef = some b` means the ref holds a recorder, `b` recording
whether `.start()` has been called on it; `audioContextOpen = some b` means
`audioContextRef` holds a context, `b` recording whether it is still open. -/
structure ModuleState where
  mediaStream : Option Nat
  streams : List MediaStreamObj
  nextSid : Nat
  videoDevices : List DeviceInfo
  audioDevices : List DeviceInfo
  recordingTime : Nat
  volume : ℚ
  selectedVideoDevice : String
  selectedAudioDevice : String
  recording : Bool
  isSubmit : Bool
  recordedVideo : Option (List Nat)
  countdown : Int
  mediaRecorderRef : Option Bool
  audioContextOpen : Option Bool
  chunks : List Chunk
  errorLog : List String
deriving Repr, DecidableEq

/-- The state of the component when first mounted. -/
def initState : ModuleState where
  mediaStream := none
  streams := []
  nextSid := 0
  videoDevices := []
  audioDevices := []
  recordingTime := 0
  volume := 0
  selectedVideoDevice := ""
  selectedAudioDevice := ""
  recording := false
  isSubmit := false
  recordedVideo := none
  countdown := 0
  mediaRecorderRef := none
  audioContextOpen := none
  chunks := []
  errorLog := []

/-- Embedding of `stream.getTracks().forEach((track) => track.stop())` for the
stream with id `sid` in the heap. -/
def stopStreamTracks (streams : List MediaStreamObj) (sid : Nat) :
    List MediaStreamObj :=
  streams.map fun st =>
    if st.sid = sid then { st with tracks := st.tracks.map fun _ => true }
    else st

/-- A stream still holds its hardware devices iff some track is not stopped. -/
def holdsDevices (st : MediaStreamObj) : Bool :=
  st.tracks.any fun b => !b

/-- The streams that currently hold devices. -/
def liveStreams (s : ModuleState) : List MediaStreamObj :=
  s.streams.filter fun st => holdsDevices st

/-- Holds when every stream that still holds devices is the one with id
`sid`: the current stream is the only live one. -/
def onlyLive (s : ModuleState) (sid : Nat) : Bool :=
  s.streams.all fun st => !(holdsDevices st) || (st.sid == sid)

/-- Holds when every track of every stream object with id `sid` is stopped. -/
def allTracksStopped (streams : List MediaStreamObj) (sid : Nat) : Bool :=
  streams.all fun st => !(st.sid == sid) || st.tracks.all fun b => b

/-- Success branch of `handlePermission`: `getUserMedia` resolved.  A fresh
stream constrained to the currently selected device pair is allocated with
live tracks and bound as the current stream (the previous stream, if any, is
not released here). -/
def handlePermissionGranted (s : ModuleState) : ModuleState :=
  let st : MediaStreamObj :=
    { sid := s.nextSid
      videoDevice := s.selectedVideoDevice
      audioDevice := s.selectedAudioDevice
      tracks := [false, false] }
  { s with streams := s.streams ++ [st]
           nextSid := s.nextSid + 1
           mediaStream := some s.nextSid }

/-- Failure branch of `handlePermission`: the `catch` logs
`console.error("Permission denied", err)` and changes nothing else. -/
def handlePermissionDenied (s : ModuleState) : ModuleState :=
  { s with errorLog := s.errorLog ++ ["Permission denied"] }

/-- Handler `handlePermission`, parametrised by whether `getUserMedia` succeeds. -/
def handlePermission (s : ModuleState) (grant : Bool) : ModuleState :=
  if grant then handlePermissionGranted s else handlePermissionDenied s

/-- Handler `stopRecording`: `mediaRecorderRef.current?.stop()` (its `onstop`
finalize fires later, see `recorderOnStop`), then `setRecording(false)` and
`setRecordingTime(0)`. -/
def stopRecording (s : ModuleState) : ModuleState :=
  { s with recording := false, recordingTime := 0 }

/-- Handler `denyMediaPermissions`: stop all tracks of the current stream, stop and
drop the recorder, reset the recording flag and elapsed time, close the
audio context (the ref keeps pointing at the closed context), and clear the
current stream. -/
def denyMediaPermissions (s : ModuleState) : ModuleState :=
  let s1 := match s.mediaStream with
    | some sid => { s with streams := stopStreamTracks s.streams sid }
    | none => s
  let s2 := match s1.mediaRecorderRef with
    | some _ => { s1 with mediaRecorderRef := none }
    | none => s1
  let s3 := { s2 with recording := false, recordingTime := 0 }
  let s4 := match s3.audioContextOpen with
    | some _ => { s3 with audioContextOpen := some false }
    | none => s3
  { s4 with mediaStream := none }

/-- The release half of `handleDeviceChange`: stop all tracks of the current
stream and clear it, then `stopRecording()`. -/
def deviceChangeRelease (s : ModuleState) : ModuleState :=
  let s1 := match s.mediaStream with
    | some sid =>
        { s with streams := stopStreamTracks s.streams sid
                 mediaStream := none }
    | none => s
  stopRecording s1

/-- Handler `handleDeviceChange`: release the current stream and recording, then
`await handlePermission()` with the (already updated) selection. -/
def handleDeviceChange (s : ModuleState) (grant : Bool) : ModuleState :=
  handlePermission (deviceChangeRelease s) grant

/-- The video `<select>` `onChange` handler:
`setSelectedVideoDevice(e.target.value); handleDeviceChange()`. -/
def changeVideoDevice (s : ModuleState) (id : String) (grant : Bool) :
    ModuleState :=
  handleDeviceChange { s with selectedVideoDevice := id } grant

/-- The audio `<select>` `onChange` handler:
`setSelectedAudioDevice(e.target.value); handleDeviceChange()`. -/
def changeAudioDevice (s : ModuleState) (id : String) (grant : Bool) :
    ModuleState :=
  handleDeviceChange { s with selectedAudioDevice := id } grant

/-- Handler `startRecording`: `setCountdown(3)` unconditionally; if a stream is
live, a fresh (not yet started) `MediaRecorder` is installed in the ref.
The `setTimeout` body is `startRecordingTimeout` below. -/
def startRecording (s : ModuleState) : ModuleState :=
  match s.mediaStream with
  | some _ => { s with countdown := 3, mediaRecorderRef := some false }
  | none => { s with countdown := 3 }

/-- The `setTimeout(..., 3000)` body of `startRecording`:
`setRecordingTime(0)`, start the elapsed-time interval
(`elapsedTick` below), `mediaRecorderRef.current?.start()`,
`setRecording(true)`. -/
def startRecordingTimeout (s : ModuleState) : ModuleState :=
  match s.mediaRecorderRef with
  | some _ =>
      { s with recordingTime := 0, mediaRecorderRef := some true,
               recording := true }
  | none => { s with recordingTime := 0, recording := true }

/-- One firing of the elapsed-time interval:
`setRecordingTime((prevTime) => prevTime + 1)`. -/
def elapsedTick (s : ModuleState) : ModuleState :=
  { s with recordingTime := s.recordingTime + 1 }

/-- One firing of the countdown interval of `useEffect([countdown])`: the
effect returns early when `countdown <= 0` (no interval is scheduled), so a
decrement only happens from a strictly positive countdown. -/
def countdownTick (s : ModuleState) : ModuleState :=
  if s.countdown ≤ 0 then s else { s with countdown := s.countdown - 1 }

/-- The recorder `ondataavailable` handler: `chunks.push(event.data)`. -/
def recorderOnDataAvailable (s : ModuleState) (data : Chunk) : ModuleState :=
  { s with chunks := s.chunks ++ [data] }

/-- The recorder `onstop` finalize: `new Blob(chunks, ...)` concatenates the
buffered fragments in order into one binary object, `setRecordedVideo(blob)`
replaces any prior artifact, and `chunks.length = 0` clears the buffer. -/
def recorderOnStop (s : ModuleState) : ModuleState :=
  { s with recordedVideo := some s.chunks.flatten, chunks := [] }

/-- Handler `handleSubmit`: only acts when a recorded video exists; then
`stopRecording()`, `setIsSubmit(true)`, `denyMediaPermissions()`. -/
def handleSubmit (s : ModuleState) : ModuleState :=
  match s.recordedVideo with
  | some _ => denyMediaPermissions { stopRecording s with isSubmit := true }
  | none => s

/-- JavaScript `a || b` on strings: the empty string is falsy. -/
def strOr (a b : String) : String :=
  if a = "" then b else a

/-- The `deviceId` of the head of a device list (`videoDevices[0].deviceId`);
only used under a non-emptiness guard, like the source. -/
def firstDeviceId : List DeviceInfo → String
  | [] => ""
  | d :: _ => d.deviceId

/-- The `useEffect([mediaStream])` enumeration body.  With a live stream
the device list is partitioned by kind into the video and audio lists and,
per kind, a non-empty list default-selects its first device unless a
selection already exists (`selectedVideoDevice || videoDevices[0].deviceId`).
Without a stream both lists are cleared. -/
def enumerateEffect (s : ModuleState) (devices : List DeviceInfo) :
    ModuleState :=
  match s.mediaStream with
  | some _ =>
      let vds := devices.filter fun d => d.kind = "videoinput"
      let ads := devices.filter fun d => d.kind = "audioinput"
      let s1 := { s with videoDevices := vds, audioDevices := ads }
      let selV := strOr s1.selectedVideoDevice (firstDeviceId vds)
      let selA := strOr s1.selectedAudioDevice (firstDeviceId ads)
      let s2 := if vds.length ≠ 0 then { s1 with selectedVideoDevice := selV }
        else s1
      if ads.length ≠ 0 then { s2 with selectedAudioDevice := selA }
      else s2
  | none => { s with videoDevices := [], audioDevices := [] }

/-- Effect `setupAudioProcessing`: closes any prior audio context and installs a
fresh, open one; runs from `useEffect([mediaStream])` only when a stream is
live. -/
def setupAudioProcessing (s : ModuleState) : ModuleState :=
  { s with audioContextOpen := some true }

/-- The value published by one iteration of `updateVolume`: the mean of the
byte-valued frequency bins, `sum / dataArray.length`. -/
def updateVolumeValue (dataArray : List Nat) : ℚ :=
  ((dataArray.sum : ℚ)) / ((dataArray.length : ℚ))

/-- One iteration of the volume sampling loop: `setVolume(average)`. -/
def updateVolumeStep (s : ModuleState) (dataArray : List Nat) : ModuleState :=
  { s with volume := updateVolumeValue dataArray }

/-- The `useEffect([selectedVideoDevice, selectedAudioDevice])` body: calls
`handlePermission()` only when both selections are non-empty and a stream is
live. -/
def selectionEffect (s : ModuleState) (grant : Bool) : ModuleState :=
  if s.selectedAudioDevice ≠ "" ∧ s.selectedVideoDevice ≠ "" ∧
      s.mediaStream.isSome then
    handlePermission s grant
  else s

/-- Helper of `formatTime`: `String.padStart(2, "0")`. -/
def padStart2 (str : String) : String :=
  if str.length ≥ 2 then str
  else if str.length = 1 then "0" ++ str
  else "00"

/-- Function `formatTime(seconds)`: split into hours, minutes, seconds and zero-pad
each field to two digits. -/
def formatTime (seconds : Nat) : String :=
  let hrs := seconds / 3600
  let mins := (seconds % 3600) / 60
  let secs := seconds % 60
  padStart2 (toString hrs) ++ ":" ++ padStart2 (toString mins) ++ ":" ++
    padStart2 (toString secs)

/-- One transition of the component: a user event, an effect body, a timer
firing, or an asynchronous platform callback. -/
inductive Step : ModuleState → ModuleState → Prop
  | permission (s : ModuleState) (grant : Bool) :
      Step s (handlePermission s grant)
  | deny (s : ModuleState) : Step s (denyMediaPermissions s)
  | changeVideo (s : ModuleState) (id : String) (grant : Bool) :
      Step s (changeVideoDevice s id grant)
  | changeAudio (s : ModuleState) (id : String) (grant : Bool) :
      Step s (changeAudioDevice s id grant)
  | start (s : ModuleState) : Step s (startRecording s)
  | startTimeout (s : ModuleState) : Step s (startRecordingTimeout s)
  | stop (s : ModuleState) : Step s (stopRecording s)
  | tick (s : ModuleState) : Step s (countdownTick s)
  | elapsed (s : ModuleState) : Step s (elapsedTick s)
  | dataAvailable (s : ModuleState) (d : Chunk) :
      Step s (recorderOnDataAvailable s d)
  | onStop (s : ModuleState) : Step s (recorderOnStop s)
  | submit (s : ModuleState) : Step s (handleSubmit s)
  | enumerate (s : ModuleState) (devices : List DeviceInfo) :
      Step s (enumerateEffect s devices)
  | setupAudio (s : ModuleState) : Step s (setupAudioProcessing s)
  | volume (s : ModuleState) (dataArray : List Nat) :
      Step s (updateVolumeStep s dataArray)
  | selection (s : ModuleState) (grant : Bool) :
      Step s (selectionEffect s grant)

/-- States reachable from the freshly mounted component. -/
def Reachable (s : ModuleState) : Prop :=
  Relation.ReflTransGen Step initState s

/-! ## Concrete example states -/

/-- A mounted component with both devices selected but no stream yet. -/
def exampleBase : ModuleState :=
  { initState with selectedVideoDevice := "cam1"
                   selectedAudioDevice := "mic1" }

/-- A state with exactly one live CaptureSession (stream id 0, cam1/mic1). -/
def sLive : ModuleState := handlePermissionGranted exampleBase

/-- A state mid-recording: live stream, started recorder, open audio
context, elapsed time 5. -/
def sBusy : ModuleState :=
  { sLive with mediaRecorderRef := some true
               audioContextOpen := some true
               recording := true
               recordingTime := 5 }

/-- A state with a live stream, a video selection already made and no audio
selection yet, for exercising the enumeration defaults. -/
def sEnum : ModuleState :=
  { initState with mediaStream := some 0, selectedVideoDevice := "oldcam" }

/-- A concrete device enumeration: two cameras and one microphone. -/
def demoDevices : List DeviceInfo :=
  [ { deviceId := "cam0", kind := "videoinput", label := "Cam 0" },
    { deviceId := "mic0", kind := "audioinput", label := "Mic 0" },
    { deviceId := "cam9", kind := "videoinput", label := "Cam 9" } ]

/-! ## Helper lemmas -/

theorem foldl_dataAvailable_chunks (ds : List Chunk) (s : ModuleState) :
    (ds.foldl recorderOnDataAvailable s).chunks = s.chunks ++ ds := by
  induction ds generalizing s with
  | nil => simp
  | cons d ds ih =>
      rw [List.foldl_cons, ih]
      simp [recorderOnDataAvailable]

theorem allTracksStopped_stopStreamTracks (strs : List MediaStreamObj)
    (sid : Nat) :
    allTracksStopped (stopStreamTracks strs sid) sid = true := by
  rw [allTracksStopped, List.all_eq_true]
  intro st hst
  rw [stopStreamTracks, List.mem_map] at hst
  obtain ⟨st₀, h₀, rfl⟩ := hst
  by_cases h : st₀.sid = sid
  · simp [h, List.all_eq_true, List.mem_map]
  · simp [h]

theorem two_le_padStart2_length (x : String) : 2 ≤ (padStart2 x).length := by
  unfold padStart2
  split_ifs with h1 h2
  · exact h1
  · have h0 : ("0" : String).length = 1 := rfl
    rw [String.length_append, h0, h2]
  · decide

/-! ## Claims -/

/-- C10: for every non-negative integer number of seconds `s`,
`formatTime s` returns the string `HH:MM:SS` where each of the three fields
is zero-padded to at least two digits, minutes and seconds are below 60, and
`HH * 3600 + MM * 60 + SS = s`. -/
theorem formatTime_spec (s : Nat) :
    ∃ H M S : Nat, M < 60 ∧ S < 60 ∧ H * 3600 + M * 60 + S = s ∧
      formatTime s = padStart2 (toString H) ++ ":" ++ padStart2 (toString M)
        ++ ":" ++ padStart2 (toString S) ∧
      2 ≤ (padStart2 (toString H)).length ∧
      2 ≤ (padStart2 (toString M)).length ∧
      2 ≤ (padStart2 (toString S)).length := by
  refine ⟨s / 3600, s % 3600 / 60, s % 60, ?_, ?_, ?_, rfl,
    two_le_padStart2_length _, two_le_padStart2_length _,
    two_le_padStart2_length _⟩
  · omega
  · omega
  · omega

/-- C7: a denied or failed stream-acquisition request (`handlePermission`
with `getUserMedia` rejecting) leaves every piece of session state unchanged
(no stream is bound, the stream heap and id counter are untouched so no
retry or further acquisition happens, selections, recording state, artifact
and buffers are untouched) and surfaces one diagnostic on the console. -/
theorem handlePermission_denied_spec (s : ModuleState) :
    (handlePermission s false).mediaStream = s.mediaStream ∧
    (handlePermission s false).streams = s.streams ∧
    (handlePermission s false).nextSid = s.nextSid ∧
    (handlePermission s false).videoDevices = s.videoDevices ∧
    (handlePermission s false).audioDevices = s.audioDevices ∧
    (handlePermission s false).selectedVideoDevice = s.selectedVideoDevice ∧
    (handlePermission s false).selectedAudioDevice = s.selectedAudioDevice ∧
    (handlePermission s false).recording = s.recording ∧
    (handlePermission s false).recordingTime = s.recordingTime ∧
    (handlePermission s false).recordedVideo = s.recordedVideo ∧
    (handlePermission s false).countdown = s.countdown ∧
    (handlePermission s false).mediaRecorderRef = s.mediaRecorderRef ∧
    (handlePermission s false).chunks = s.chunks ∧
    (handlePermission s false).errorLog = s.errorLog ++ ["Permission denied"]
    := by
  exact ⟨rfl, rfl, rfl, rfl, rfl, rfl, rfl, rfl, rfl, rfl, rfl, rfl, rfl,
    rfl⟩

/-- C6: elapsed recording time is reset to 0 at start-of-recording (the
3-second `setTimeout` body resets it when buffering begins and the elapsed
tick starts) and immediately at `stopRecording`; the artifact is produced
only by the later asynchronous `onstop` finalize, which leaves the reset
elapsed time untouched. -/
theorem elapsed_time_reset_spec (s : ModuleState) :
    (startRecordingTimeout s).recordingTime = 0 ∧
    (stopRecording s).recordingTime = 0 ∧
    (stopRecording s).recordedVideo = s.recordedVideo ∧
    (recorderOnStop (stopRecording s)).recordingTime = 0 := by
  obtain ⟨ms, strs, nsid, vds, ads, rt, vol, sv, sa, rec, sub, rv, cd, mrr,
    aco, ch, el⟩ := s
  exact ⟨by cases mrr <;> rfl, rfl, rfl, rfl⟩

/-- C5: each `dataavailable` event appends its fragment to the in-memory
ordered chunk sequence; on stop-finalize the produced RecordedArtifact is
the in-order concatenation of all buffered fragments, it replaces any prior
artifact (the single `recordedVideo` slot holds exactly this object
afterwards), and the fragment sequence is cleared. -/
theorem recording_cycle_spec (s t : ModuleState) (d : Chunk)
    (ds : List Chunk) (h : s.chunks = []) :
    (recorderOnDataAvailable t d).chunks = t.chunks ++ [d] ∧
    (recorderOnStop (ds.foldl recorderOnDataAvailable s)).recordedVideo =
      some ds.flatten ∧
    (recorderOnStop (ds.foldl recorderOnDataAvailable s)).chunks = [] := by
  refine ⟨rfl, ?_, rfl⟩
  simp [recorderOnStop, foldl_dataAvailable_chunks, h]

/-- Witness for C5: a concrete cycle buffering the fragments `[1, 2]` and
`[3]` produces the artifact `[1, 2, 3]` and clears the buffer. -/
theorem recording_cycle_spec_witness :
    initState.chunks = [] ∧
    (recorderOnDataAvailable initState [7]).chunks =
      initState.chunks ++ [[7]] ∧
    (recorderOnStop
        ([[1, 2], [3]].foldl recorderOnDataAvailable initState)).recordedVideo
      = some [1, 2, 3] ∧
    (recorderOnStop
        ([[1, 2], [3]].foldl recorderOnDataAvailable initState)).chunks
      = [] := by
  have h := recording_cycle_spec initState initState [7] [[1, 2], [3]] rfl
  exact ⟨rfl, h.1, h.2.1, h.2.2⟩

/-- C4 counterexample: the analyser's frequency bins are bytes (0–255);
with all 128 bins at 255 the published VolumeSample is 255, outside the
0–100 range asserted by the claim. -/
theorem updateVolume_counterexample :
    updateVolumeValue (List.replicate 128 255) = 255 ∧
    ¬ updateVolumeValue (List.replicate 128 255) ≤ 100 := by
  have h : updateVolumeValue (List.replicate 128 255) = 255 := by
    unfold updateVolumeValue
    rw [List.sum_replicate, List.length_replicate]
    norm_num
  rw [h]
  norm_num

/-- C4 (amended): each iteration of the volume sampling loop publishes the
mean amplitude across the frequency bins as the VolumeSample; since the
bins are bytes, the published scalar lies in the range 0–255 (values above
100 do occur, see the counterexample). -/
theorem updateVolume_spec (s : ModuleState) (dataArray : List Nat)
    (hbytes : ∀ x ∈ dataArray, x ≤ 255) (hlen : dataArray.length ≠ 0) :
    (updateVolumeStep s dataArray).volume =
      (dataArray.sum : ℚ) / (dataArray.length : ℚ) ∧
    0 ≤ (updateVolumeStep s dataArray).volume ∧
    (updateVolumeStep s dataArray).volume ≤ 255 := by
  have hpos : (0 : ℚ) < (dataArray.length : ℚ) := by
    exact_mod_cast Nat.pos_of_ne_zero hlen
  refine ⟨rfl, ?_, ?_⟩
  · exact div_nonneg (by positivity) (le_of_lt hpos)
  · show (dataArray.sum : ℚ) / (dataArray.length : ℚ) ≤ 255
    rw [div_le_iff₀ hpos]
    have hsum : dataArray.sum ≤ dataArray.length * 255 := by
      have := List.sum_le_card_nsmul dataArray 255 hbytes
      simpa [smul_eq_mul] using this
    have : (dataArray.sum : ℚ) ≤ (dataArray.length : ℚ) * 255 := by
      exact_mod_cast hsum
    linarith

/-- Witness for C4 at the concrete bin list `[0, 100]`: the published
sample is the mean and lies within 0–255. -/
theorem updateVolume_spec_witness :
    ([0, 100] : List Nat).length ≠ 0 ∧
    (updateVolumeStep initState [0, 100]).volume =
      ((([0, 100] : List Nat).sum : ℚ)) /
        ((([0, 100] : List Nat).length : ℚ)) ∧
    0 ≤ (updateVolumeStep initState [0, 100]).volume ∧
    (updateVolumeStep initState [0, 100]).volume ≤ 255 := by
  have h := updateVolume_spec initState [0, 100] (by decide) (by decide)
  exact ⟨by decide, h.1, h.2.1, h.2.2⟩

/-- C3 counterexample: in the freshly mounted state no CaptureSession is
live, yet calling `startRecording` is not a no-op — `setCountdown(3)` runs
before the stream guard, so the countdown changes from 0 to 3. -/
theorem startRecording_counterexample :
    initState.mediaStream = none ∧ initState.countdown = 0 ∧
    (startRecording initState).countdown = 3 :=
  ⟨rfl, rfl, rfl⟩

/-- C3 (amended): when no CaptureSession is live, calling `startRecording`
sets the countdown to 3 and changes nothing else — the recording flag,
elapsed time, recorder and chunk buffer are unchanged.  (There is no guard
on the recording machine's state, so the operation is never a full
no-op.) -/
theorem startRecording_no_session_spec (s : ModuleState)
    (h : s.mediaStream = none) :
    startRecording s = { s with countdown := 3 } := by
  unfold startRecording
  rw [h]

/-- Witness for C3 (amended) at the freshly mounted state. -/
theorem startRecording_no_session_spec_witness :
    initState.mediaStream = none ∧
    startRecording initState = { initState with countdown := 3 } :=
  ⟨rfl, startRecording_no_session_spec initState rfl⟩

/-- C2: `denyMediaPermissions` is idempotent — calling it twice in a row
yields the same end state as calling it once — and is safe from every
state, including with no active session: afterwards every track of the
previously current stream is stopped, the recorder is stopped and dropped,
the recording flag is cleared, elapsed time is reset to 0, the audio
context (if one exists) is closed, and the session is cleared. -/
theorem denyMediaPermissions_spec (s : ModuleState) (sid : Nat) :
    denyMediaPermissions (denyMediaPermissions s) = denyMediaPermissions s ∧
    (denyMediaPermissions s).mediaStream = none ∧
    (denyMediaPermissions s).mediaRecorderRef = none ∧
    (denyMediaPermissions s).recording = false ∧
    (denyMediaPermissions s).recordingTime = 0 ∧
    (s.mediaStream = some sid →
      allTracksStopped (denyMediaPermissions s).streams sid = true) ∧
    (s.audioContextOpen.isSome = true →
      (denyMediaPermissions s).audioContextOpen = some false) := by
  obtain ⟨ms, strs, nsid, vds, ads, rt, vol, sv, sa, rec, sub, rv, cd, mrr,
    aco, ch, el⟩ := s
  cases ms <;> cases mrr <;> cases aco <;>
    refine ⟨rfl, rfl, rfl, rfl, rfl, ?_, ?_⟩ <;> intro h <;>
    first
      | rfl
      | exact Option.noConfusion h
      | exact Bool.noConfusion h
      | (injection h with h2
         subst h2
         exact allTracksStopped_stopStreamTracks strs _)

/-- Witness for C2 at a busy concrete state (live stream, started recorder,
open audio context). -/
theorem denyMediaPermissions_spec_witness :
    sBusy.mediaStream = some 0 ∧
    sBusy.audioContextOpen.isSome = true ∧
    denyMediaPermissions (denyMediaPermissions sBusy) =
      denyMediaPermissions sBusy ∧
    allTracksStopped (denyMediaPermissions sBusy).streams 0 = true ∧
    (denyMediaPermissions sBusy).audioContextOpen = some false ∧
    (denyMediaPermissions sBusy).mediaStream = none := by
  have h := denyMediaPermissions_spec sBusy 0
  exact ⟨rfl, rfl, h.1, h.2.2.2.2.2.1 rfl, h.2.2.2.2.2.2 rfl, h.2.1⟩

/-- C8: the device enumeration performed on CaptureSession acquisition
partitions the devices into the video and audio lists; for each kind with a
non-empty list and no current selection the selection defaults to the first
enumerated device of that kind, and an already-made selection is
preserved. -/
theorem enumerateEffect_spec (s : ModuleState) (devices : List DeviceInfo)
    (sid : Nat) (hlive : s.mediaStream = some sid) :
    (enumerateEffect s devices).videoDevices =
      devices.filter (fun d => d.kind = "videoinput") ∧
    (enumerateEffect s devices).audioDevices =
      devices.filter (fun d => d.kind = "audioinput") ∧
    (devices.filter (fun d => d.kind = "videoinput") ≠ [] →
      s.selectedVideoDevice = "" →
      (enumerateEffect s devices).selectedVideoDevice =
        firstDeviceId (devices.filter (fun d => d.kind = "videoinput"))) ∧
    (s.selectedVideoDevice ≠ "" →
      (enumerateEffect s devices).selectedVideoDevice =
        s.selectedVideoDevice) ∧
    (devices.filter (fun d => d.kind = "audioinput") ≠ [] →
      s.selectedAudioDevice = "" →
      (enumerateEffect s devices).selectedAudioDevice =
        firstDeviceId (devices.filter (fun d => d.kind = "audioinput"))) ∧
    (s.selectedAudioDevice ≠ "" →
      (enumerateEffect s devices).selectedAudioDevice =
        s.selectedAudioDevice) := by
  obtain ⟨ms, strs, nsid, vds0, ads0, rt, vol, sv, sa, rec, sub, rv, cd, mrr,
    aco, ch, el⟩ := s
  subst hlive
  simp only [enumerateEffect]
  split_ifs with hv ha ha <;>
    refine ⟨rfl, rfl, ?_, ?_, ?_, ?_⟩ <;> intro h1 <;> try intro h2
  all_goals simp_all [strOr, List.length_eq_zero]

/-- Witness for C8: with a live stream, a camera already chosen and no
microphone chosen, enumerating two cameras and one microphone keeps the
camera selection and defaults the microphone to the first audio device. -/
theorem enumerateEffect_spec_witness :
    sEnum.mediaStream = some 0 ∧
    (enumerateEffect sEnum demoDevices).videoDevices =
      demoDevices.filter (fun d => d.kind = "videoinput") ∧
    (enumerateEffect sEnum demoDevices).audioDevices =
      demoDevices.filter (fun d => d.kind = "audioinput") ∧
    (enumerateEffect sEnum demoDevices).selectedVideoDevice = "oldcam" ∧
    (enumerateEffect sEnum demoDevices).selectedAudioDevice = "mic0" := by
  have h := enumerateEffect_spec sEnum demoDevices 0 rfl
  refine ⟨rfl, h.1, h.2.1, ?_, ?_⟩
  · rw [h.2.2.2.1 (by decide)]
    rfl
  · rw [h.2.2.2.2.1 (by decide) rfl]
    rfl

/-! ## Device switching (C1) -/

theorem filter_stopStreamTracks_eq_nil (strs : List MediaStreamObj)
    (sid : Nat)
    (honly : (strs.all fun st => !(holdsDevices st) || (st.sid == sid))
      = true) :
    (stopStreamTracks strs sid).filter (fun st => holdsDevices st) = [] := by
  rw [List.filter_eq_nil_iff]
  intro st hst
  rw [stopStreamTracks, List.mem_map] at hst
  obtain ⟨st₀, h₀, rfl⟩ := hst
  rw [List.all_eq_true] at honly
  have h2 := honly st₀ h₀
  by_cases h : st₀.sid = sid
  · simp [h, holdsDevices, List.any_map, Function.comp]
  · simp [h] at h2 ⊢
    simp [h2]

theorem liveStreams_handlePermissionGranted (t : ModuleState) :
    liveStreams (handlePermissionGranted t) =
      liveStreams t ++
        [{ sid := t.nextSid, videoDevice := t.selectedVideoDevice,
           audioDevice := t.selectedAudioDevice,
           tracks := [false, false] }] := by
  unfold liveStreams handlePermissionGranted
  rw [List.filter_append]
  rfl

theorem handleDeviceChange_true (s : ModuleState) :
    handleDeviceChange s true =
      handlePermissionGranted (deviceChangeRelease s) := rfl

theorem handleDeviceChange_false (s : ModuleState) :
    handleDeviceChange s false =
      handlePermissionDenied (deviceChangeRelease s) := rfl

theorem deviceChangeRelease_eq (s : ModuleState) (sid : Nat)
    (hcur : s.mediaStream = some sid) :
    deviceChangeRelease s =
      { s with streams := stopStreamTracks s.streams sid
               mediaStream := none
               recording := false
               recordingTime := 0 } := by
  unfold deviceChangeRelease stopRecording
  rw [hcur]

theorem liveStreams_handleDeviceChange (s : ModuleState) (sid : Nat)
    (hcur : s.mediaStream = some sid) (honly : onlyLive s sid = true) :
    liveStreams (deviceChangeRelease s) = [] ∧
    liveStreams (handleDeviceChange s true) =
      [{ sid := s.nextSid, videoDevice := s.selectedVideoDevice,
         audioDevice := s.selectedAudioDevice,
         tracks := [false, false] }] ∧
    liveStreams (handleDeviceChange s false) = [] := by
  have hrel0 : liveStreams (deviceChangeRelease s) = [] := by
    rw [deviceChangeRelease_eq s sid hcur]
    exact filter_stopStreamTracks_eq_nil s.streams sid honly
  refine ⟨hrel0, ?_, ?_⟩
  · rw [handleDeviceChange_true, liveStreams_handlePermissionGranted, hrel0,
      deviceChangeRelease_eq s sid hcur]
    rfl
  · rw [handleDeviceChange_false]
    exact hrel0

/-- C1 (amended): switching the selected video or audio device from a
state whose only live CaptureSession is the current stream first stops all
its tracks and any active recording — after the release phase zero streams
hold devices, so no state ever holds two device pairs simultaneously — and
then re-requests access with the new device pair; if the request is granted
exactly one live CaptureSession (the new pair) exists afterwards, and if it
is denied none remains. -/
theorem changeDevice_spec (s : ModuleState) (id : String) (grant : Bool)
    (sid : Nat) (hcur : s.mediaStream = some sid)
    (honly : onlyLive s sid = true) :
    liveStreams (deviceChangeRelease
      { s with selectedVideoDevice := id }) = [] ∧
    liveStreams (deviceChangeRelease
      { s with selectedAudioDevice := id }) = [] ∧
    (grant = true → liveStreams (changeVideoDevice s id grant) =
      [{ sid := s.nextSid, videoDevice := id,
         audioDevice := s.selectedAudioDevice,
         tracks := [false, false] }]) ∧
    (grant = true → liveStreams (changeAudioDevice s id grant) =
      [{ sid := s.nextSid, videoDevice := s.selectedVideoDevice,
         audioDevice := id, tracks := [false, false] }]) ∧
    (grant = false → liveStreams (changeVideoDevice s id grant) = []) ∧
    (grant = false → liveStreams (changeAudioDevice s id grant) = []) := by
  have hv := liveStreams_handleDeviceChange
    { s with selectedVideoDevice := id } sid hcur honly
  have ha := liveStreams_handleDeviceChange
    { s with selectedAudioDevice := id } sid hcur honly
  refine ⟨hv.1, ha.1, ?_, ?_, ?_, ?_⟩ <;> intro hg <;> subst hg
  · exact hv.2.1
  · exact ha.2.1
  · exact hv.2.2
  · exact ha.2.2

/-- C1 counterexample: from a state with exactly one live CaptureSession,
switching the video device while the re-acquisition request is denied
leaves zero live CaptureSessions, not exactly one: the old stream is
released before the request and the `catch` binds no new session. -/
theorem changeDevice_counterexample :
    (liveStreams sLive).length = 1 ∧
    (liveStreams (changeVideoDevice sLive "cam2" false)).length = 0 :=
  ⟨rfl, rfl⟩

/-- Witness for C1 (amended) at the concrete one-live-session state. -/
theorem changeDevice_spec_witness :
    sLive.mediaStream = some 0 ∧ onlyLive sLive 0 = true ∧
    liveStreams (deviceChangeRelease
      { sLive with selectedVideoDevice := "cam2" }) = [] ∧
    liveStreams (changeVideoDevice sLive "cam2" true) =
      [{ sid := 1, videoDevice := "cam2", audioDevice := "mic1",
         tracks := [false, false] }] ∧
    liveStreams (changeVideoDevice sLive "cam2" false) = [] := by
  have h := changeDevice_spec sLive "cam2" true 0 rfl rfl
  have h2 := changeDevice_spec sLive "cam2" false 0 rfl rfl
  exact ⟨rfl, rfl, h.1, h.2.2.1 rfl, h2.2.2.2.2.1 rfl⟩

/-! ## Countdown invariant (C9) -/

theorem handlePermission_countdown (s : ModuleState) (g : Bool) :
    (handlePermission s g).countdown = s.countdown := by
  cases g <;> rfl

theorem denyMediaPermissions_countdown (s : ModuleState) :
    (denyMediaPermissions s).countdown = s.countdown := by
  obtain ⟨ms, strs, nsid, vds, ads, rt, vol, sv, sa, rec, sub, rv, cd, mrr,
    aco, ch, el⟩ := s
  cases ms <;> cases mrr <;> cases aco <;> rfl

theorem deviceChangeRelease_countdown (s : ModuleState) :
    (deviceChangeRelease s).countdown = s.countdown := by
  obtain ⟨ms, strs, nsid, vds, ads, rt, vol, sv, sa, rec, sub, rv, cd, mrr,
    aco, ch, el⟩ := s
  cases ms <;> rfl

theorem handleDeviceChange_countdown (s : ModuleState) (g : Bool) :
    (handleDeviceChange s g).countdown = s.countdown := by
  unfold handleDeviceChange
  rw [handlePermission_countdown, deviceChangeRelease_countdown]

theorem changeVideoDevice_countdown (s : ModuleState) (id : String)
    (g : Bool) : (changeVideoDevice s id g).countdown = s.countdown := by
  unfold changeVideoDevice
  rw [handleDeviceChange_countdown]

theorem changeAudioDevice_countdown (s : ModuleState) (id : String)
    (g : Bool) : (changeAudioDevice s id g).countdown = s.countdown := by
  unfold changeAudioDevice
  rw [handleDeviceChange_countdown]

theorem startRecording_countdown (s : ModuleState) :
    (startRecording s).countdown = 3 := by
  obtain ⟨ms, strs, nsid, vds, ads, rt, vol, sv, sa, rec, sub, rv, cd, mrr,
    aco, ch, el⟩ := s
  cases ms <;> rfl

theorem startRecordingTimeout_countdown (s : ModuleState) :
    (startRecordingTimeout s).countdown = s.countdown := by
  obtain ⟨ms, strs, nsid, vds, ads, rt, vol, sv, sa, rec, sub, rv, cd, mrr,
    aco, ch, el⟩ := s
  cases mrr <;> rfl

theorem handleSubmit_countdown (s : ModuleState) :
    (handleSubmit s).countdown = s.countdown := by
  obtain ⟨ms, strs, nsid, vds, ads, rt, vol, sv, sa, rec, sub, rv, cd, mrr,
    aco, ch, el⟩ := s
  cases rv
  · rfl
  · exact (denyMediaPermissions_countdown _).trans rfl

theorem enumerateEffect_countdown (s : ModuleState)
    (devices : List DeviceInfo) :
    (enumerateEffect s devices).countdown = s.countdown := by
  obtain ⟨ms, strs, nsid, vds, ads, rt, vol, sv, sa, rec, sub, rv, cd, mrr,
    aco, ch, el⟩ := s
  cases ms
  · rfl
  · simp only [enumerateEffect]
    split_ifs <;> rfl

theorem selectionEffect_countdown (s : ModuleState) (g : Bool) :
    (selectionEffect s g).countdown = s.countdown := by
  unfold selectionEffect
  split_ifs
  · rw [handlePermission_countdown]
  · rfl

theorem step_preserves_countdown {s t : ModuleState} (hst : Step s t)
    (h : 0 ≤ s.countdown) : 0 ≤ t.countdown := by
  cases hst with
  | permission g => rw [handlePermission_countdown]; exact h
  | deny => rw [denyMediaPermissions_countdown]; exact h
  | changeVideo id g => rw [changeVideoDevice_countdown]; exact h
  | changeAudio id g => rw [changeAudioDevice_countdown]; exact h
  | start => rw [startRecording_countdown]; decide
  | startTimeout => rw [startRecordingTimeout_countdown]; exact h
  | stop => exact h
  | tick =>
      unfold countdownTick
      split_ifs with hc
      · exact h
      · show 0 ≤ s.countdown - 1
        omega
  | elapsed => exact h
  | dataAvailable d => exact h
  | onStop => exact h
  | submit => rw [handleSubmit_countdown]; exact h
  | enumerate devices => rw [enumerateEffect_countdown]; exact h
  | setupAudio => exact h
  | volume d => exact h
  | selection g => rw [selectionEffect_countdown]; exact h

/-- C9: the countdown never becomes negative — in every reachable state it
is at least 0, because the one-second tick decrements only while the
countdown is strictly positive and every other operation leaves the
countdown unchanged or sets it to 3. -/
theorem reachable_countdown_nonneg (s : ModuleState) (h : Reachable s) :
    0 ≤ s.countdown := by
  unfold Reachable at h
  induction h with
  | refl => decide
  | tail _ hstep ih => exact step_preserves_countdown hstep ih

/-- Witness for C9: the state reached by one press of start is reachable
and its countdown (3) is non-negative. -/
theorem reachable_countdown_nonneg_witness :
    Reachable (startRecording initState) ∧
    0 ≤ (startRecording initState).countdown :=
  ⟨Relation.ReflTransGen.single (Step.start initState),
   reachable_countdown_nonneg (startRecording initState)
     (Relation.ReflTransGen.single (Step.start initState))⟩

end RecordingModule
